import Mathlib

/-!
Verification of the `connector` package (datastoreConnector): a shallow
embedding in Lean 4 of the two source files `datasoreConnector.go` and
`datastoreAtomicConnector.go`, together with theorems settling the spec
claims about the client factory, the atomic counter protocol, and the
error-handling behaviour of the CRUD helpers.

The embedding separates two aspects of the Go code:

* the *state-level* behaviour of the counter operations on the happy path
  (every store call succeeds), modelled as pure functions on a store
  `String → Option Int` (a counter record `BasicCounter{Amount int}` keyed
  by entity id; `none` = record absent);
* the *error dataflow* through the single mutable `err` variable of each
  method, modelled by threading an abstract error value through `let`
  rebindings that mirror the Go assignments, with the outcome of each
  underlying store call (`NewTransaction`, `Get`, `Put`, `Commit`,
  `Delete`) injected as a parameter.
-/

namespace DatastoreConnector

/-! ## Client type selection

`datasoreConnector.go` lines 16-48 (duplicated verbatim in the second
connector file): the `datatoreClientType` constants are `int`s starting
at 1, and `getClientType` picks one from the emulator flag and the
credentials path. -/

/-- `SIMPLE datatoreClientType = 1 + iota` -/
def SIMPLE : Int := 1

/-- `EMULATOR` (second constant of the iota block) -/
def EMULATOR : Int := 2

/-- `KEYFILE` (third constant of the iota block) -/
def KEYFILE : Int := 3

/-- `getClientType(emulatorEnable bool, gcloudCredentialsPath string)`:
`if emulatorEnable { EMULATOR } else if path != "" { KEYFILE } else { SIMPLE }`. -/
def getClientType (emulatorEnable : Bool) (gcloudCredentialsPath : String) : Int :=
  if emulatorEnable then EMULATOR
  else if gcloudCredentialsPath ≠ "" then KEYFILE
  else SIMPLE

/-- The branch taken by the `switch getClientType(...)` statement of the
factory functions `New` / `NewAtomicConnector` (cases in source order:
`EMULATOR`, `SIMPLE`, `KEYFILE`, `default` = `log.Fatal("Unknown Datastore client")`). -/
inductive FactoryBranch where
  | emulator
  | simple
  | keyfile
  | fatalUnknown
deriving DecidableEq, Repr

/-- Dispatch of the factory `switch` on the client type value. -/
def factorySwitch (c : Int) : FactoryBranch :=
  if c = EMULATOR then .emulator
  else if c = SIMPLE then .simple
  else if c = KEYFILE then .keyfile
  else .fatalUnknown

/-! ## Error values

Go `error` results, as far as the connector inspects them: `nil`,
`datastore.ErrNoSuchEntity` (the only error value compared against), and
any other non-nil error. -/

/-- Abstract Go `error` value: `nil`, `datastore.ErrNoSuchEntity`, or any
other non-nil error. -/
inductive Err where
  | noErr
  | noSuchEntity
  | other
deriving DecidableEq, Repr

/-- Outcome of the transactional `t.Get(inboundKey, &counter)`: the record
was found with the given `Amount`, was absent (`ErrNoSuchEntity`), or the
read failed with some other error. -/
inductive GetOutcome where
  | found (v : Int)
  | notFound
  | failed
deriving DecidableEq, Repr

/-- The `error` value returned by `t.Get` for each outcome. -/
def getErr : GetOutcome → Err
  | .found _ => .noErr
  | .notFound => .noSuchEntity
  | .failed => .other

/-- The contents of `counter.Amount` after `t.Get`: the stored amount when
found, otherwise the zero value `0` of `var counter BasicCounter`
(Go leaves `dst` at its zero value when the read finds nothing or fails). -/
def getValue : GetOutcome → Int
  | .found v => v
  | .notFound => 0
  | .failed => 0

/-! ## The `err` dataflow of IncrementCounter / DecrementCounter

`datastoreAtomicConnector.go` lines 98-138. Both methods assign the same
single `err` variable in the same order:

    t, err := d.client.NewTransaction(d.ctx)
    err = t.Get(inboundKey, &counter)
    if err == nil || err == datastore.ErrNoSuchEntity {
        ... compute new amount ...
        _, err = t.Put(inboundKey, &counter)
        _, err = t.Commit()
    }
    if err == nil { success = true }

Each `let err := ...` below mirrors one Go assignment; the values injected
for the four store calls are arbitrary. -/

/-- Success flag computed by the shared `err` dataflow of
`IncrementCounter` and `DecrementCounter`, as a function of the outcomes
of the four underlying store calls. -/
def txnSuccess (newTxErr : Err) (g : GetOutcome) (putErr commitErr : Err) : Bool :=
  let err := newTxErr
  let err := getErr g
  let err :=
    if err = .noErr ∨ err = .noSuchEntity then
      let err := putErr
      let err := commitErr
      err
    else err
  err = .noErr

/-! ## Count (`datastoreAtomicConnector.go` lines 140-156)

    t, err := d.client.NewTransaction(d.ctx)
    err = t.Get(inboundKey, &counter)
    _, err = t.Commit()
    if err != nil { amount = 0 }
    if err == nil { amount = counter.Amount }
    return

`amount` is a named return value, zero-initialised. -/

/-- Result of `Count(entityID)` as a function of the outcomes of the three
underlying store calls. -/
def countResult (newTxErr : Err) (g : GetOutcome) (commitErr : Err) : Int :=
  let amount : Int := 0
  let err := newTxErr
  let err := getErr g
  let counterAmount := getValue g
  let err := commitErr
  let amount := if err ≠ .noErr then 0 else amount
  let amount := if err = .noErr then counterAmount else amount
  amount

/-! ## Delete

`datasoreConnector.go` lines 144-151 and the identical method at
`datastoreAtomicConnector.go` lines 296-303:

    if err := d.client.Delete(d.ctx, key); err != nil { deleted = true }
    return

`deleted` is a named return value, zero-initialised to `false`. -/

/-- Result of `Delete` as a function of the outcome of the underlying
`client.Delete` call. -/
def deleteResult (deleteErr : Err) : Bool :=
  let deleted := false
  if deleteErr ≠ .noErr then true else deleted

/-! ## State-level model of the counter operations (happy path)

The datastore, restricted to one collection of `BasicCounter` records:
a map from entity id to the stored `Amount`, `none` when no record exists
for that key. On the happy path every store call succeeds, the
transactional `Get` returns the stored record or `ErrNoSuchEntity`, and
`Commit` applies the buffered `Put`. -/

/-- The store: `BasicCounter` records of one collection, keyed by entity id. -/
def Store : Type := String → Option Int

/-- A store with no records. -/
def emptyStore : Store := fun _ => none

/-- Committing `t.Put(NameKey(collection, entityID), &counter)`: the record
at `entityID` now holds `v`; other keys are untouched. -/
def putRecord (s : Store) (entityID : String) (v : Int) : Store :=
  fun x => if x = entityID then some v else s x

/-- `counter.Amount` after the transactional read: the stored amount, or
the zero value `0` when the record is absent (`ErrNoSuchEntity` branch). -/
def getAmount (s : Store) (entityID : String) : Int :=
  (s entityID).getD 0

/-- `IncrementCounter(entityID, incrementAmount)` on the happy path:
read-or-zero, add the delta, write, commit; returns the new store and the
success flag (`err == nil` throughout, hence `true`). -/
def incrementCounter (s : Store) (entityID : String) (incrementAmount : Int) :
    Store × Bool :=
  let amount := getAmount s entityID + incrementAmount
  (putRecord s entityID amount, true)

/-- `DecrementCounter(entityID, decrementAmount)` on the happy path:
read-or-zero, subtract the delta, clamp at zero
(`if counter.Amount < 0 { counter.Amount = 0 }`), write, commit. -/
def decrementCounter (s : Store) (entityID : String) (decrementAmount : Int) :
    Store × Bool :=
  let amount := getAmount s entityID - decrementAmount
  let amount := if amount < 0 then 0 else amount
  (putRecord s entityID amount, true)

/-- `Count(entityID)` on the happy path: the stored amount, or `0` when the
record is absent. -/
def count (s : Store) (entityID : String) : Int :=
  getAmount s entityID

/-! ## Sequences of counter operations -/

/-- One committed call to `IncrementCounter` or `DecrementCounter` (the
delta argument as passed by the caller). -/
inductive CounterOp where
  | inc (delta : Int)
  | dec (delta : Int)
deriving DecidableEq, Repr

/-- The delta argument of a call. -/
def opDelta : CounterOp → Int
  | .inc d => d
  | .dec d => d

/-- The signed delta of a call: `+delta` for an increment, `-delta` for a
decrement. -/
def signedDelta : CounterOp → Int
  | .inc d => d
  | .dec d => -d

/-- Effect of one committed call on the store. -/
def applyOp (s : Store) (entityID : String) : CounterOp → Store
  | .inc d => (incrementCounter s entityID d).1
  | .dec d => (decrementCounter s entityID d).1

/-- Run a sequence of calls on one entity id, in commit order. -/
def runOps (ops : List CounterOp) (s : Store) (entityID : String) : Store :=
  ops.foldl (fun st op => applyOp st entityID op) s

/-- Sum of the signed deltas of a sequence of calls. -/
def sumDeltas (ops : List CounterOp) : Int :=
  (ops.map signedDelta).sum

/-- Largest suffix sum of a list of signed deltas (the empty suffix, of
sum `0`, included). -/
def bestSuffix : List Int → Int
  | [] => 0
  | d :: rest => max (d + rest.sum) (bestSuffix rest)

/-- The counter amount stays non-negative after every committed operation
of the sequence, starting from an empty store. -/
def amountsNonneg (ops : List CounterOp) (entityID : String) : Prop :=
  ∀ n : Nat, 0 ≤ getAmount (runOps (ops.take n) emptyStore entityID) entityID

/-- Every call of the sequence passes a non-negative delta argument. -/
abbrev deltasNonneg (ops : List CounterOp) : Prop :=
  ∀ op ∈ ops, 0 ≤ opDelta op

/-! ## The factory functions as a step system

`datasoreConnector.go` lines 62-126: `New` guards construction with a
package-level `sync.Once` and stores the connector in the package-level
`Instance`, returning it on every call.
`datastoreAtomicConnector.go` lines 39-96: `NewAtomicConnector` has no such
guard — `var Instance = new(datastoreAtomicConnector)` allocates a fresh
connector on every call.

Constructed handles are numbered; `nextId` counts how many constructions
have happened, `builtId` is the handle held by the `sync.Once`-guarded
package variable (`none` before the first `New` call). -/

/-- Process state relevant to the factory functions. -/
structure FactoryState where
  builtId : Option Nat
  nextId : Nat
deriving DecidableEq, Repr

/-- State at process start: nothing constructed. -/
def initFactoryState : FactoryState := ⟨none, 0⟩

/-- One call to `New` (`datasoreConnector.go`): inside `once.Do`, the first
call constructs a handle and stores it in `Instance`; later calls skip the
body and return the stored handle. Returns the new state and the handle
the call returns. -/
def newCall (s : FactoryState) : FactoryState × Nat :=
  match s.builtId with
  | some i => (s, i)
  | none => (⟨some s.nextId, s.nextId + 1⟩, s.nextId)

/-- One call to `NewAtomicConnector` (`datastoreAtomicConnector.go`): no
`sync.Once`, so every call constructs and returns a fresh handle. -/
def newAtomicCall (s : FactoryState) : FactoryState × Nat :=
  (⟨s.builtId, s.nextId + 1⟩, s.nextId)

/-- A call to one of the two factory functions. -/
inductive FactoryCall where
  | basicNew
  | atomicNew
deriving DecidableEq, Repr

/-- Run a sequence of factory calls; returns the final state and the list
of handles returned to the callers, in call order. -/
def runFactory : List FactoryCall → FactoryState → FactoryState × List Nat
  | [], s => (s, [])
  | c :: rest, s =>
    let r := match c with
      | .basicNew => newCall s
      | .atomicNew => newAtomicCall s
    let r' := runFactory rest r.1
    (r'.1, r.2 :: r'.2)

/-! ## Theorems -/

/-- C2: for every entity id and non-negative delta, `DecrementCounter`
writes `max(0, currentAmount − delta)` — clamping at zero when the delta
exceeds the current amount — and returns `success = true`; the underflow
never produces a negative stored amount and never causes a failure. -/
theorem decrementCounter_clamps (s : Store) (entityID : String) (delta : Int)
    (h : 0 ≤ delta) :
    (decrementCounter s entityID delta).1 entityID =
      some (max 0 (getAmount s entityID - delta)) ∧
    (decrementCounter s entityID delta).2 = true := by
  refine ⟨?_, rfl⟩
  simp only [decrementCounter, putRecord, if_pos, Option.some.injEq, max_def]
  split_ifs <;> omega

theorem decrementCounter_clamps_witness :
    (0 : Int) ≤ 100 ∧
    ((decrementCounter (putRecord emptyStore "c" 3) "c" 100).1 "c" =
        some (max 0 (getAmount (putRecord emptyStore "c" 3) "c" - 100)) ∧
      (decrementCounter (putRecord emptyStore "c" 3) "c" 100).2 = true) :=
  ⟨by decide, decrementCounter_clamps (putRecord emptyStore "c" 3) "c" 100 (by decide)⟩

/-- C9: for every entity id with no existing counter record and every
non-negative delta, `DecrementCounter` creates the record: the not-found
read is treated as amount `0`, the written record holds `0`, and the call
returns `success = true`. -/
theorem decrementCounter_creates (s : Store) (entityID : String) (delta : Int)
    (habs : s entityID = none) (h : 0 ≤ delta) :
    (decrementCounter s entityID delta).1 entityID = some 0 ∧
    (decrementCounter s entityID delta).2 = true := by
  refine ⟨?_, rfl⟩
  simp only [decrementCounter, putRecord, getAmount, habs, Option.getD_none, if_pos,
    Option.some.injEq]
  split_ifs <;> omega

theorem decrementCounter_creates_witness :
    emptyStore "c" = none ∧ (0 : Int) ≤ 7 ∧
    ((decrementCounter emptyStore "c" 7).1 "c" = some 0 ∧
      (decrementCounter emptyStore "c" 7).2 = true) :=
  ⟨rfl, by decide, decrementCounter_creates emptyStore "c" 7 rfl (by decide)⟩

/-- C4: `Count` returns the stored amount when the transactional read and
the commit succeed; it returns `0` when the record is absent (whatever the
commit outcome), when the read fails, and when the commit fails — the
return type is a bare integer, so no error is surfaced to the caller. -/
theorem count_swallows_failures (newTxErr commitErr : Err) (v : Int) :
    countResult newTxErr (.found v) .noErr = v ∧
    countResult newTxErr .notFound commitErr = 0 ∧
    countResult newTxErr .failed commitErr = 0 ∧
    countResult newTxErr (.found v) .noSuchEntity = 0 ∧
    countResult newTxErr (.found v) .other = 0 := by
  cases commitErr <;> simp [countResult, getValue]

/-- C5: `Delete` (identical in both connector files) returns `true` exactly
when the underlying `client.Delete` call returns a non-nil error, and
`false` exactly when it succeeds. -/
theorem delete_inverted_polarity (deleteErr : Err) :
    (deleteResult deleteErr = true ↔ deleteErr ≠ .noErr) ∧
    (deleteResult deleteErr = false ↔ deleteErr = .noErr) := by
  cases deleteErr <;> simp [deleteResult]

/-- C6: the client factory's mode selection: `emulatorEnable = true`
selects `EMULATOR` regardless of the credentials path; otherwise a
non-empty credentials path selects `KEYFILE` and an empty one `SIMPLE`. -/
theorem getClientType_selection (p : String) :
    getClientType true p = EMULATOR ∧
    (p ≠ "" → getClientType false p = KEYFILE) ∧
    getClientType false "" = SIMPLE := by
  refine ⟨rfl, fun h => ?_, rfl⟩
  simp [getClientType, h]

theorem getClientType_selection_witness :
    ("creds" : String) ≠ "" ∧
    (getClientType true "creds" = EMULATOR ∧
      getClientType false "creds" = KEYFILE ∧
      getClientType false "" = SIMPLE) :=
  ⟨by decide, (getClientType_selection "creds").1,
    (getClientType_selection "creds").2.1 (by decide),
    (getClientType_selection "creds").2.2⟩

/-- C10: `getClientType` always returns one of the three constants
`SIMPLE`, `EMULATOR`, `KEYFILE`, so the `default` branch of the factory
`switch` — the fatal "Unknown Datastore client" path — is unreachable. -/
theorem factorySwitch_default_unreachable (e : Bool) (p : String) :
    (getClientType e p = SIMPLE ∨ getClientType e p = EMULATOR ∨
      getClientType e p = KEYFILE) ∧
    factorySwitch (getClientType e p) ≠ FactoryBranch.fatalUnknown := by
  cases e <;> by_cases h : p = "" <;>
    simp [getClientType, factorySwitch, SIMPLE, EMULATOR, KEYFILE, h]

/-- C8: in `IncrementCounter` and `DecrementCounter` (which share the same
`err` dataflow, embedded as `txnSuccess`) the returned success value does
not depend on the errors of `NewTransaction` or of the transactional
`Put` — both are overwritten — and `success = true` exactly when the `Get`
returned nil or `ErrNoSuchEntity` and the `Commit` returned nil. -/
theorem txnSuccess_depends_only_on_get_and_commit
    (ntx₁ ntx₂ put₁ put₂ : Err) (g : GetOutcome) (commitErr : Err) :
    txnSuccess ntx₁ g put₁ commitErr = txnSuccess ntx₂ g put₂ commitErr ∧
    (txnSuccess ntx₁ g put₁ commitErr = true ↔
      (getErr g = .noErr ∨ getErr g = .noSuchEntity) ∧ commitErr = .noErr) := by
  cases g <;> cases commitErr <;> simp [txnSuccess, getErr]

/-- C3: evaluation of the `err` dataflow at the failing inputs: when the
transactional `Put` fails but the `Commit` succeeds, and when
`NewTransaction` fails but every later call succeeds, the code still
returns `success = true`, although a step of the sequence errored; only a
`Commit` failure (or a failed `Get`) yields `false`. -/
theorem txnSuccess_ignores_open_and_put_errors :
    txnSuccess .noErr (.found 3) .other .noErr = true ∧
    txnSuccess .other (.found 3) .noErr .noErr = true ∧
    txnSuccess .noErr (.found 3) .noErr .other = false := by
  decide

/-- C1 (counterexample): with the delta `-1`, `IncrementCounter` commits a
negative amount, and for the sequence `Decrement 1; Increment 1` the final
amount is `1` while `max(0, sum of signed deltas)` is `0`. -/
theorem counter_maxsum_cex :
    getAmount (runOps [CounterOp.inc (-1)] emptyStore "c") "c" < 0 ∧
    getAmount (runOps [CounterOp.dec 1, CounterOp.inc 1] emptyStore "c") "c" ≠
      max 0 (sumDeltas [CounterOp.dec 1, CounterOp.inc 1]) := by
  decide

/-- C7 (counterexample): two successive calls to `NewAtomicConnector` from
the initial process state construct two handles (`nextId` ends at `2`) and
return distinct handles `0` and `1` — the second call does not return the
already-constructed handle. -/
theorem newAtomicConnector_not_singleton :
    (runFactory [FactoryCall.atomicNew, FactoryCall.atomicNew]
        initFactoryState).1.nextId = 2 ∧
    (runFactory [FactoryCall.atomicNew, FactoryCall.atomicNew]
        initFactoryState).2 = [0, 1] := by
  decide

/-! ### Helper lemmas for the counter-sequence theorem (C1, amended) -/

theorem bestSuffix_nonneg (l : List Int) : 0 ≤ bestSuffix l := by
  induction l with
  | nil => exact le_refl 0
  | cons d rest ih => exact le_trans ih (le_max_right _ _)

theorem sum_le_bestSuffix (l : List Int) : l.sum ≤ bestSuffix l := by
  induction l with
  | nil => exact le_refl 0
  | cons d rest ih =>
    simp only [List.sum_cons, bestSuffix]
    exact le_max_left _ _

theorem getAmount_putRecord (s : Store) (entityID : String) (v : Int) :
    getAmount (putRecord s entityID v) entityID = v := by
  simp [getAmount, putRecord]

theorem getAmount_applyOp (s : Store) (entityID : String) (op : CounterOp)
    (hop : 0 ≤ opDelta op) (hs : 0 ≤ getAmount s entityID) :
    getAmount (applyOp s entityID op) entityID =
      max 0 (getAmount s entityID + signedDelta op) := by
  cases op with
  | inc d =>
    simp only [applyOp, incrementCounter, signedDelta, getAmount_putRecord]
    simp only [opDelta] at hop
    omega
  | dec d =>
    simp only [applyOp, decrementCounter, signedDelta, getAmount_putRecord]
    split_ifs <;> omega

theorem runOps_cons (op : CounterOp) (ops : List CounterOp) (s : Store)
    (entityID : String) :
    runOps (op :: ops) s entityID = runOps ops (applyOp s entityID op) entityID :=
  rfl

theorem getAmount_runOps (entityID : String) :
    ∀ (ops : List CounterOp) (s : Store), deltasNonneg ops →
      0 ≤ getAmount s entityID →
      getAmount (runOps ops s entityID) entityID =
        max (getAmount s entityID + sumDeltas ops)
          (bestSuffix (ops.map signedDelta)) := by
  intro ops
  induction ops with
  | nil =>
    intro s _ hs
    simp only [runOps, List.foldl_nil, sumDeltas, List.map_nil, List.sum_nil,
      bestSuffix, add_zero]
    omega
  | cons op rest ih =>
    intro s h hs
    have hop : 0 ≤ opDelta op := h op (List.mem_cons_self op rest)
    have hrest : deltasNonneg rest := fun o ho => h o (List.mem_cons_of_mem op ho)
    have hstep := getAmount_applyOp s entityID op hop hs
    have hs' : 0 ≤ getAmount (applyOp s entityID op) entityID := by
      rw [hstep]; exact le_max_left _ _
    rw [runOps_cons, ih (applyOp s entityID op) hrest hs', hstep]
    have hsum : (rest.map signedDelta).sum ≤ bestSuffix (rest.map signedDelta) :=
      sum_le_bestSuffix _
    simp only [sumDeltas, List.map_cons, List.sum_cons, bestSuffix, max_def]
    split_ifs <;> omega

/-- C1 (amended): for every entity id and every sequence of
`IncrementCounter`/`DecrementCounter` calls with non-negative deltas,
starting from an empty store, the amount is non-negative after each
committed operation, and the final amount equals
`max(0, largest suffix sum of the signed deltas in commit order)` —
the per-operation clamp makes this the correct closed form, not
`max(0, total sum)`. -/
theorem counter_sequence_spec (ops : List CounterOp) (entityID : String)
    (h : deltasNonneg ops) :
    amountsNonneg ops entityID ∧
    getAmount (runOps ops emptyStore entityID) entityID =
      max 0 (bestSuffix (ops.map signedDelta)) := by
  have hempty : getAmount emptyStore entityID = 0 := rfl
  constructor
  · intro n
    have htake : deltasNonneg (ops.take n) :=
      fun o ho => h o (List.mem_of_mem_take ho)
    rw [getAmount_runOps entityID (ops.take n) emptyStore htake (le_of_eq hempty.symm)]
    exact le_trans (bestSuffix_nonneg _) (le_max_right _ _)
  · rw [getAmount_runOps entityID ops emptyStore h (le_of_eq hempty.symm), hempty,
      zero_add]
    have h1 : sumDeltas ops ≤ bestSuffix (ops.map signedDelta) := sum_le_bestSuffix _
    have h2 : (0 : Int) ≤ bestSuffix (ops.map signedDelta) := bestSuffix_nonneg _
    omega

theorem counter_sequence_spec_witness :
    deltasNonneg [CounterOp.inc 2, CounterOp.dec 5, CounterOp.inc 4] ∧
    (amountsNonneg [CounterOp.inc 2, CounterOp.dec 5, CounterOp.inc 4] "c" ∧
      getAmount (runOps [CounterOp.inc 2, CounterOp.dec 5, CounterOp.inc 4]
          emptyStore "c") "c" =
        max 0 (bestSuffix
          ([CounterOp.inc 2, CounterOp.dec 5, CounterOp.inc 4].map signedDelta))) :=
  ⟨by decide,
    counter_sequence_spec [CounterOp.inc 2, CounterOp.dec 5, CounterOp.inc 4] "c"
      (by decide)⟩

/-! ### Helper lemmas for the factory-singleton theorem (C7, amended) -/

theorem runFactory_basic_built (m i k : Nat) :
    runFactory (List.replicate m FactoryCall.basicNew) ⟨some i, k⟩ =
      (⟨some i, k⟩, List.replicate m i) := by
  induction m with
  | zero => rfl
  | succ n ih =>
    simp only [List.replicate_succ, runFactory, newCall, ih]

theorem runFactory_atomic_nextId (m : Nat) :
    ∀ s : FactoryState,
      (runFactory (List.replicate m FactoryCall.atomicNew) s).1.nextId =
        s.nextId + m := by
  induction m with
  | zero => intro s; rfl
  | succ n ih =>
    intro s
    simp only [List.replicate_succ, runFactory, newAtomicCall, ih]
    omega

/-- C7 (amended): `New` (the `sync.Once`-guarded factory of
`datasoreConnector.go`) constructs the handle at most once — after `n + 1`
calls from the initial state exactly one handle was constructed and every
call returned that same handle `0` — whereas `NewAtomicConnector`
constructs a fresh handle on every call: `n` calls perform `n`
constructions. -/
theorem factory_construction_spec (n : Nat) :
    (runFactory (List.replicate (n + 1) FactoryCall.basicNew)
        initFactoryState).1.nextId = 1 ∧
    (runFactory (List.replicate (n + 1) FactoryCall.basicNew)
        initFactoryState).2 = List.replicate (n + 1) 0 ∧
    (runFactory (List.replicate n FactoryCall.atomicNew)
        initFactoryState).1.nextId = n := by
  refine ⟨?_, ?_, ?_⟩
  · simp only [List.replicate_succ, runFactory, initFactoryState, newCall,
      runFactory_basic_built]
  · simp only [List.replicate_succ, runFactory, initFactoryState, newCall,
      runFactory_basic_built]
  · simpa [initFactoryState] using runFactory_atomic_nextId n initFactoryState

end DatastoreConnector
